import Mathlib

/-!
Verification of the test-case-generator requirement pipeline.

The repository ships a CLI driver (src/cli/cli.py), a static UI server and a
test suite; the five backend services the CLI and the tests exercise
(normalization, classification, behavior extraction, coverage, generation)
are not part of the source tree, so they are modelled here from the
specification (spec.md sections 3, 4, 6, 8), as indicated in each doc
comment.  The CLI driver itself is embedded from src/cli/cli.py,
parameterized over the service functions it calls.

All text processing is done with structurally recursive character-level
functions so that every definition is executable and kernel-reducible.
-/

namespace TCGen

/-! ## Character and word level string machinery -/

/-- Lowercase every character of a string. -/
def toLowerStr (s : String) : String := String.mk (s.data.map Char.toLower)

/-- Uppercase every character of a string. -/
def toUpperStr (s : String) : String := String.mk (s.data.map Char.toUpper)

/-- First n characters of a string (models the Python slice s[:n]). -/
def takeStr (n : Nat) (s : String) : String := String.mk (s.data.take n)

/-- Decide whether the first list of characters occurs at the start of the second. -/
def isPrefixC : List Char → List Char → Bool
  | [], _ => true
  | _ :: _, [] => false
  | p :: ps, c :: cs => p == c && isPrefixC ps cs

/-- Decide whether the first list of characters occurs contiguously anywhere in the second. -/
def substrC (p : List Char) : List Char → Bool
  | [] => isPrefixC p []
  | c :: cs => isPrefixC p (c :: cs) || substrC p cs

/-- Substring test on strings: does the needle occur in the haystack. -/
def strContains (hay needle : String) : Bool := substrC needle.data hay.data

/-- Accumulator-based word splitter over characters (splits on spaces,
drops empty fragments). -/
def wordsAux : List Char → List Char → List String
  | [], acc => if acc.isEmpty then [] else [String.mk acc.reverse]
  | c :: cs, acc =>
    if c == ' ' then
      if acc.isEmpty then wordsAux cs [] else String.mk acc.reverse :: wordsAux cs []
    else wordsAux cs (c :: acc)

/-- Split a string into whitespace-separated words. -/
def words (s : String) : List String := wordsAux s.data []

/-- Join words back into a single space-separated string. -/
def joinWords : List String → String
  | [] => ""
  | [w] => w
  | w :: ws => w ++ " " ++ joinWords ws

/-- Canonical token used for keyword matching: letters and hyphens only, lowercased. -/
def canonTok (w : String) : String :=
  String.mk ((w.data.filter (fun c => c.isAlpha || c == '-')).map Char.toLower)

/-- Capitalize the first character of a string. -/
def capitalize (s : String) : String :=
  match s.data with
  | [] => ""
  | c :: cs => String.mk (c.toUpper :: cs)

/-! ## Normalizer

Modelled from the spec: the NormalizationService (backend/services/normalization.py
is absent from the source tree; only its tests and its CLI caller are present).
Spec section 4.1: compound splitting on conjunctions joining independent
modal-verb clauses, slot extraction (actor before the modal verb, action after
it up to a conditional marker, conditions after the marker), ambiguity
detection over a fixed vague-term vocabulary, and provenance tracking. -/

/-- Modal verbs recognized by the normalizer (spec section 4.1 step 1: a modal
verb such as shall marks an independent clause). -/
def modalVerbs : List String := ["shall", "must", "should", "will"]

/-- Is this word a modal verb (case-insensitive). -/
def isModal (w : String) : Bool := modalVerbs.contains (toLowerStr w)

/-- Does the word sequence contain a modal verb. -/
def containsModal (ws : List String) : Bool := ws.any isModal

/-- Split a word sequence at each occurrence of the conjunction token.
Always returns at least one (possibly empty) group. -/
def splitOnAnd : List String → List (List String)
  | [] => [[]]
  | w :: ws =>
    if toLowerStr w == "and" then [] :: splitOnAnd ws
    else
      match splitOnAnd ws with
      | [] => [[w]]
      | g :: gs => (w :: g) :: gs

/-- Rejoin fragments that contain no modal verb of their own into the previous
clause (spec section 4.1 step 1: same actor with multiple actions is NOT split;
only a fragment that is itself an independent modal-verb clause starts a new
requirement). -/
def regroupGo (acc : List String) : List (List String) → List (List String)
  | [] => [acc]
  | g :: gs =>
    if containsModal g then acc :: regroupGo g gs
    else regroupGo (acc ++ "and" :: g) gs

/-- Compound splitting: clause word-lists of the requirement text. -/
def splitClauses (ws : List String) : List (List String) :=
  match splitOnAnd ws with
  | [] => [ws]
  | g :: gs => regroupGo g gs

/-- Articles dropped when extracting the actor noun phrase. -/
def articles : List String := ["the", "a", "an"]

/-- Words of the subject preceding the first modal verb, articles dropped. -/
def actorWords (ws : List String) : List String :=
  (ws.takeWhile (fun w => !isModal w)).filter (fun w => !(articles.contains (toLowerStr w)))

/-- Actor slot: the subject preceding the modal verb, capitalized. -/
def extractActor (ws : List String) : String :=
  capitalize (joinWords (actorWords ws))

/-- Conditional markers that terminate the action slot and introduce conditions
(spec section 4.1 step 2). -/
def condMarkers : List String := ["when", "if", "while", "for", "unless"]

/-- Is this word a conditional marker (case-insensitive). -/
def isCondMarker (w : String) : Bool := condMarkers.contains (toLowerStr w)

/-- Words following the first modal verb. -/
def afterModal (ws : List String) : List String :=
  (ws.dropWhile (fun w => !isModal w)).drop 1

/-- Action slot words: after the modal verb, up to a conditional marker. -/
def actionWords (ws : List String) : List String :=
  (afterModal ws).takeWhile (fun w => !isCondMarker w)

/-- Action slot: verb phrase following the modal verb; falls back to the whole
clause when no modal verb is present. -/
def extractAction (ws : List String) : String :=
  let aw := actionWords ws
  if aw.isEmpty then joinWords ws else joinWords aw

/-- Condition clause: words after the first conditional marker (marker dropped);
empty when no marker occurs after the modal verb. -/
def extractConditions (ws : List String) : List String :=
  match (afterModal ws).dropWhile (fun w => !isCondMarker w) with
  | [] => []
  | _ :: rest => [joinWords rest]

/-- Expected outcome slot: a paraphrase of the action is used when no explicit
result clause is present (spec section 4.1 step 2 default). -/
def extractOutcome (action : String) : String :=
  action ++ " is completed successfully"

/-- Fixed vocabulary of vague qualifiers (spec section 4.1 step 3). -/
def vagueTerms : List String :=
  ["fast", "secure", "appropriate", "reasonable", "user-friendly",
   "quick", "quickly", "efficient", "easy", "simple", "robust"]

/-- Does any word of the clause carry a digit (used as the measurable-qualifier
test: a vague term next to a concrete number is not flagged). -/
def hasDigit (ws : List String) : Bool := ws.any (fun w => w.data.any Char.isDigit)

/-- Vague terms occurring as words of the clause. -/
def vagueIn (ws : List String) : List String :=
  vagueTerms.filter (fun t => ws.any (fun w => canonTok w == t))

/-- One ambiguity finding, mirroring the AmbiguityIssue records consumed as
i.description by the CLI (src/cli/cli.py line 112). -/
structure AmbiguityIssue where
  description : String
deriving Repr, DecidableEq

/-- Actor-Action-Conditions-Outcome slots of a normalized requirement
(spec section 3 NormalizedRequirement). -/
structure NormalizedData where
  actor : String
  action : String
  conditions : List String
  expected_outcome : String
deriving Repr, DecidableEq

/-- Provenance record of a normalized requirement (spec section 3: keys
requirement_id, original_text, transformation_steps, confidence). -/
structure Provenance where
  requirement_id : String
  original_text : String
  transformation_steps : List String
  confidence : Rat
deriving Repr, DecidableEq

/-- One result of the normalizer, as consumed by the tests and the CLI. -/
structure NormalizationResult where
  original_text : String
  normalized : NormalizedData
  is_ambiguous : Bool
  ambiguity_issues : List AmbiguityIssue
  clarifying_questions : List String
  confidence : Rat
  provenance : Provenance
deriving Repr, DecidableEq

/-- Confidence after n detected issues: each issue lowers confidence by 0.15,
floored at 0.1 (spec section 4.1 step 3: more issues imply lower confidence). -/
def confFromIssues (n : Nat) : Rat :=
  max (1 - mkRat 15 100 * mkRat n 1) (mkRat 1 10)

/-- Modelled from the spec: normalization of a single clause (slot extraction,
ambiguity detection, provenance) per spec section 4.1 steps 2 to 4. -/
def normalizeClause (originalText : String) (idx : Nat) (ws : List String) :
    NormalizationResult :=
  let actor := extractActor ws
  let action := extractAction ws
  let conds := extractConditions ws
  let vague := if hasDigit ws then [] else vagueIn ws
  let issues :=
    (if actor == "" then
      [AmbiguityIssue.mk "Missing actor: no subject found before the modal verb"] else [])
    ++ (if containsModal ws then [] else
      [AmbiguityIssue.mk "Missing modal verb: requirement strength is unclear"])
    ++ vague.map (fun t =>
      AmbiguityIssue.mk ("Vague term " ++ t ++ " lacks a measurable qualifier"))
  let questions :=
    vague.map (fun t => "What measurable criterion defines " ++ t ++ "?")
    ++ (if actor == "" then ["Who or what is the actor of this requirement?"] else [])
  let conf := confFromIssues issues.length
  let steps :=
    ["Tokenized clause and identified modal structure",
     "Extracted actor slot: " ++ actor,
     "Extracted action slot: " ++ action]
    ++ (if conds.isEmpty then [] else ["Extracted condition clause"])
    ++ (if vague.isEmpty then [] else ["Flagged vague terms for clarification"])
  { original_text := originalText
    normalized := ⟨actor, action, conds, extractOutcome action⟩
    is_ambiguous := !issues.isEmpty
    ambiguity_issues := issues
    clarifying_questions := questions
    confidence := conf
    provenance := ⟨"REQ-" ++ toString (idx + 1), originalText, steps, conf⟩ }

/-- Modelled from the spec: NormalizationService.normalize (the service source
is absent from src/; spec section 4.1).  Splits the text into independent
modal-verb clauses and normalizes each clause. -/
def normalize (text : String) : List NormalizationResult :=
  (splitClauses (words text)).enum.map (fun p => normalizeClause text p.1 p.2)

/-! ## Normalizer lemmas -/

theorem headD_mem {α : Type _} {l : List α} (d : α) (h : l ≠ []) : l.headD d ∈ l := by
  cases l with
  | nil => exact absurd rfl h
  | cons a t => simp [List.headD]

theorem splitOnAnd_ne_nil (ws : List String) : splitOnAnd ws ≠ [] := by
  induction ws with
  | nil => simp [splitOnAnd]
  | cons w ws ih =>
    simp only [splitOnAnd]
    split
    · simp
    · split
      · simp
      · simp

theorem regroupGo_ne_nil (gs : List (List String)) : ∀ acc, regroupGo acc gs ≠ [] := by
  induction gs with
  | nil => intro acc; simp [regroupGo]
  | cons g gs ih =>
    intro acc
    simp only [regroupGo]
    split
    · simp
    · exact ih _

theorem splitClauses_ne_nil (ws : List String) : splitClauses ws ≠ [] := by
  unfold splitClauses
  split
  · simp
  · exact regroupGo_ne_nil _ _

theorem normalize_ne_nil (text : String) : normalize text ≠ [] := by
  unfold normalize
  simp only [ne_eq, List.map_eq_nil_iff, List.enum_eq_nil]
  exact splitClauses_ne_nil _

theorem normalizeClause_steps_ne_nil (t : String) (i : Nat) (ws : List String) :
    (normalizeClause t i ws).provenance.transformation_steps ≠ [] := by
  simp [normalizeClause]

theorem normalizeClause_actor (t : String) (i : Nat) (ws : List String) :
    (normalizeClause t i ws).normalized.actor = extractActor ws := by
  simp [normalizeClause]

theorem splitOnAnd_no_and (ws : List String) (h : ∀ w ∈ ws, toLowerStr w ≠ "and") :
    splitOnAnd ws = [ws] := by
  induction ws with
  | nil => rfl
  | cons w ws ih =>
    have hw : ¬ ((toLowerStr w == "and") = true) := by
      simpa using h w (List.mem_cons_self w ws)
    simp only [splitOnAnd, if_neg hw]
    rw [ih (fun x hx => h x (List.mem_cons_of_mem _ hx))]

theorem splitOnAnd_append_and (ws1 ws2 : List String)
    (h1 : ∀ w ∈ ws1, toLowerStr w ≠ "and") (h2 : ∀ w ∈ ws2, toLowerStr w ≠ "and") :
    splitOnAnd (ws1 ++ "and" :: ws2) = [ws1, ws2] := by
  induction ws1 with
  | nil =>
    simp only [List.nil_append, splitOnAnd, if_pos (by decide : (toLowerStr "and" == "and") = true)]
    rw [splitOnAnd_no_and ws2 h2]
  | cons w ws ih =>
    have hw : ¬ ((toLowerStr w == "and") = true) := by
      simpa using h1 w (List.mem_cons_self w ws)
    simp only [List.cons_append, splitOnAnd, if_neg hw, List.append_eq]
    rw [ih (fun x hx => h1 x (List.mem_cons_of_mem _ hx))]

theorem splitClauses_split (ws1 ws2 : List String)
    (h1 : ∀ w ∈ ws1, toLowerStr w ≠ "and") (h2 : ∀ w ∈ ws2, toLowerStr w ≠ "and")
    (hm : containsModal ws2 = true) :
    splitClauses (ws1 ++ "and" :: ws2) = [ws1, ws2] := by
  unfold splitClauses
  rw [splitOnAnd_append_and ws1 ws2 h1 h2]
  simp [regroupGo, hm]

theorem splitClauses_noSplit (ws1 ws2 : List String)
    (h1 : ∀ w ∈ ws1, toLowerStr w ≠ "and") (h2 : ∀ w ∈ ws2, toLowerStr w ≠ "and")
    (hm : containsModal ws2 = false) :
    splitClauses (ws1 ++ "and" :: ws2) = [ws1 ++ "and" :: ws2] := by
  unfold splitClauses
  rw [splitOnAnd_append_and ws1 ws2 h1 h2]
  simp [regroupGo, hm]

/-! ## Claims about the Normalizer -/

/-- C1: for every non-empty input string, normalize returns a non-empty
sequence of results, and every returned result has a non-empty provenance
transformation_steps list. -/
theorem normalize_nonempty_with_provenance (text : String) (_h : text ≠ "") :
    normalize text ≠ [] ∧
    ∀ r ∈ normalize text, r.provenance.transformation_steps ≠ [] := by
  refine ⟨normalize_ne_nil text, ?_⟩
  intro r hr
  unfold normalize at hr
  obtain ⟨p, _, rfl⟩ := List.mem_map.mp hr
  exact normalizeClause_steps_ne_nil _ _ _

theorem normalize_nonempty_with_provenance_witness :
    ("User shall logout" : String) ≠ "" ∧
    (normalize "User shall logout" ≠ [] ∧
      ∀ r ∈ normalize "User shall logout", r.provenance.transformation_steps ≠ []) :=
  ⟨by decide, normalize_nonempty_with_provenance "User shall logout" (by decide)⟩

/-- C2: normalizing "User shall login and system shall authenticate" returns
exactly 2 normalized requirements with actors User and System; in general a
second independent modal-verb clause after the conjunction becomes its own
requirement (with its own actor slot), while a conjunct that is not itself a
modal-verb clause is kept inside the single requirement. -/
theorem compound_requirement_splitting :
    (normalize "User shall login and system shall authenticate").length = 2 ∧
    (normalize "User shall login and system shall authenticate").map
      (fun r => r.normalized.actor) = ["User", "System"] ∧
    (∀ text ws1 ws2, words text = ws1 ++ "and" :: ws2 →
      (∀ w ∈ ws1, toLowerStr w ≠ "and") → (∀ w ∈ ws2, toLowerStr w ≠ "and") →
      containsModal ws2 = true →
      (normalize text).map (fun r => r.normalized.actor)
        = [extractActor ws1, extractActor ws2]) ∧
    (∀ text ws1 ws2, words text = ws1 ++ "and" :: ws2 →
      (∀ w ∈ ws1, toLowerStr w ≠ "and") → (∀ w ∈ ws2, toLowerStr w ≠ "and") →
      containsModal ws2 = false →
      (normalize text).length = 1) := by
  refine ⟨by decide, by decide, ?_, ?_⟩
  · intro text ws1 ws2 hw h1 h2 hm
    unfold normalize
    rw [hw, splitClauses_split ws1 ws2 h1 h2 hm]
    simp [List.enum, List.enumFrom, normalizeClause_actor]
  · intro text ws1 ws2 hw h1 h2 hm
    unfold normalize
    rw [hw, splitClauses_noSplit ws1 ws2 h1 h2 hm]
    simp

theorem compound_requirement_splitting_witness :
    words "User shall login and system shall authenticate"
      = ["User", "shall", "login"] ++ "and" :: ["system", "shall", "authenticate"] ∧
    containsModal ["system", "shall", "authenticate"] = true ∧
    (normalize "User shall login and system shall authenticate").map
      (fun r => r.normalized.actor)
      = [extractActor ["User", "shall", "login"],
         extractActor ["system", "shall", "authenticate"]] :=
  ⟨by decide, by decide,
    compound_requirement_splitting.2.2.1 "User shall login and system shall authenticate"
      ["User", "shall", "login"] ["system", "shall", "authenticate"]
      (by decide) (by decide) (by decide) (by decide)⟩

/-- C6: is_ambiguous is raised only when at least one ambiguity issue or
clarifying question was recorded for that result, and the first result of
normalizing "The system shall be fast and secure" is ambiguous or carries a
non-empty clarifying_questions list. -/
theorem ambiguity_flag_requires_issue :
    (∀ text : String, ∀ r ∈ normalize text, r.is_ambiguous = true →
      r.ambiguity_issues ≠ [] ∨ r.clarifying_questions ≠ []) ∧
    (normalize "The system shall be fast and secure").head?.map
      (fun r => r.is_ambiguous || !r.clarifying_questions.isEmpty) = some true := by
  constructor
  · intro text r hr hamb
    unfold normalize at hr
    obtain ⟨p, _, rfl⟩ := List.mem_map.mp hr
    left
    intro hnil
    simp only [normalizeClause] at hamb hnil
    rw [hnil] at hamb
    simp at hamb
  · decide

theorem ambiguity_flag_requires_issue_witness :
    (normalize "The system shall be fast and secure").headD (normalizeClause "" 0 [])
      ∈ normalize "The system shall be fast and secure" ∧
    ((normalize "The system shall be fast and secure").headD
      (normalizeClause "" 0 [])).is_ambiguous = true ∧
    (((normalize "The system shall be fast and secure").headD
        (normalizeClause "" 0 [])).ambiguity_issues ≠ [] ∨
      ((normalize "The system shall be fast and secure").headD
        (normalizeClause "" 0 [])).clarifying_questions ≠ []) :=
  ⟨headD_mem _ (normalize_ne_nil _), by decide,
    ambiguity_flag_requires_issue.1 "The system shall be fast and secure" _
      (headD_mem _ (normalize_ne_nil _)) (by decide)⟩

/-! ## Classifier

Modelled from the spec: the ClassificationService (backend/services/classification.py
is absent from the source tree).  Spec section 4.2: per-dimension keyword
scoring, primary class by highest score with Functional default, priority hint
High for security or data-loss keywords, Low only for cosmetic wording, Medium
otherwise. -/

/-- Requirement-type dimensions of the classifier (spec section 4.2). -/
inductive RequirementClass where
  | Functional
  | Security
  | Performance
  | Validation
  | ApiBehavior
  | Concurrency
  | Nfr
deriving Repr, DecidableEq

/-- The string value of each requirement class, as used in classification lists. -/
def className : RequirementClass → String
  | .Functional => "Functional"
  | .Security => "Security"
  | .Performance => "Performance"
  | .Validation => "Validation"
  | .ApiBehavior => "API behavior"
  | .Concurrency => "Concurrency"
  | .Nfr => "NFR"

/-- Security keyword patterns (spec section 4.2: encrypt, authoriz-star,
password, token and kin; matched as substrings of the lowercased text). -/
def kwSecurity : List String :=
  ["encrypt", "authoriz", "unauthorized", "password", "token", "credential",
   "security", "authenticat", "attack", "vulnerab", "access control"]

/-- Data-loss and irreversibility keywords feeding the High priority rule. -/
def kwDataLoss : List String :=
  ["data loss", "irreversib", "destroy", "purge", "wipe", "permanently delete"]

/-- Cosmetic or informational wording mapped to the Low priority hint. -/
def kwCosmetic : List String :=
  ["cosmetic", "informational", "tooltip", "color scheme", "font", "label text"]

/-- Performance keyword patterns. -/
def kwPerformance : List String :=
  ["millisecond", "seconds", "response time", "latency", "throughput",
   "uptime", "respond within"]

/-- Validation keyword patterns. -/
def kwValidation : List String :=
  ["validat", "format", "length", "sanitize", "input must"]

/-- API-behavior keyword patterns (HTTP verb and path style). -/
def kwApiBehavior : List String :=
  ["post /", "get /", "put /", "delete /", "endpoint", "api "]

/-- Concurrency keyword patterns. -/
def kwConcurrency : List String :=
  ["concurrent", "simultaneous", "parallel", "race condition", "locking"]

/-- Functional keyword patterns (baseline). -/
def kwFunctional : List String :=
  ["create", "login", "logout", "submit", "generate", "process", "account"]

/-- Number of keyword patterns of a set matched in the lowercased text. -/
def countMatches (textLow : String) (kws : List String) : Nat :=
  (kws.filter (fun k => strContains textLow k)).length

/-- Keyword score of each class on the lowercased text. -/
def classScore (textLow : String) : RequirementClass → Nat
  | .Functional => countMatches textLow kwFunctional
  | .Security => countMatches textLow kwSecurity
  | .Performance => countMatches textLow kwPerformance
  | .Validation => countMatches textLow kwValidation
  | .ApiBehavior => countMatches textLow kwApiBehavior
  | .Concurrency => countMatches textLow kwConcurrency
  | .Nfr => 0

/-- Fixed dimension-priority order used to break score ties deterministically
(spec section 4.2). -/
def classOrder : List RequirementClass :=
  [.Security, .Performance, .Concurrency, .Validation, .ApiBehavior, .Functional]

/-- Primary class: the best-scoring dimension in the fixed priority order,
defaulting to Functional when every score is zero. -/
def primaryClass (textLow : String) : RequirementClass :=
  ((classOrder.map (fun c => (c, classScore textLow c))).foldl
    (fun best p => if p.2 > best.2 then p else best)
    (RequirementClass.Functional, 0)).1

/-- Secondary classes: every other dimension with a positive score, in the
fixed priority order. -/
def secondaryClasses (textLow : String) : List RequirementClass :=
  classOrder.filter (fun c => c ≠ primaryClass textLow && classScore textLow c > 0)

/-- Priority hint (spec section 4.2): High if security or data-loss keywords
are present, Low only for cosmetic wording, Medium as the default. -/
def priorityHint (textLow : String) : String :=
  if countMatches textLow kwSecurity ≠ 0 || countMatches textLow kwDataLoss ≠ 0 then "High"
  else if countMatches textLow kwCosmetic ≠ 0 then "Low"
  else "Medium"

/-- Classification output (spec section 3). -/
structure Classification where
  primary_class : RequirementClass
  secondary_classes : List RequirementClass
  confidence_scores : List (RequirementClass × Rat)
  priority_hint : String
  reasoning : String
deriving Repr, DecidableEq

/-- Normalized confidence score of a class: matched patterns over the size of
the pattern set, lifted into the 0.7 to 1.0 band for the primary class. -/
def confidenceScore (textLow : String) (c : RequirementClass) : Rat :=
  if c = primaryClass textLow then
    mkRat 7 10 + mkRat 3 10 * min 1 (mkRat (classScore textLow c) 1)
  else min 1 (mkRat (classScore textLow c) 4)

/-- Modelled from the spec: ClassificationService.classify (the service source
is absent from src/; spec section 4.2).  Pure and total over any string input. -/
def classify (text : String) : Classification :=
  let t := toLowerStr text
  { primary_class := primaryClass t
    secondary_classes := secondaryClasses t
    confidence_scores := classOrder.map (fun c => (c, confidenceScore t c))
    priority_hint := priorityHint t
    reasoning := "Primary classification: " ++ className (primaryClass t) }

/-! ## Claim about the Classifier -/

/-- C7: classify assigns exactly one priority hint out of High, Medium, Low to
every input; the hint is High whenever security or data-loss keywords are
present; and classifying "System shall prevent unauthorized access" yields
the High priority hint. -/
theorem priority_hint_total_and_high :
    (∀ text : String, (classify text).priority_hint = "High" ∨
      (classify text).priority_hint = "Medium" ∨ (classify text).priority_hint = "Low") ∧
    (∀ text : String,
      countMatches (toLowerStr text) kwSecurity ≠ 0 ∨
        countMatches (toLowerStr text) kwDataLoss ≠ 0 →
      (classify text).priority_hint = "High") ∧
    (classify "System shall prevent unauthorized access").priority_hint = "High" := by
  refine ⟨?_, ?_, by decide⟩
  · intro text
    simp only [classify, priorityHint]
    split
    · exact Or.inl rfl
    · split
      · exact Or.inr (Or.inr rfl)
      · exact Or.inr (Or.inl rfl)
  · intro text h
    simp only [classify, priorityHint]
    rw [if_pos]
    simp only [Bool.or_eq_true, decide_eq_true_eq]
    exact h

theorem priority_hint_total_and_high_witness :
    (countMatches (toLowerStr "System shall prevent unauthorized access") kwSecurity ≠ 0 ∨
      countMatches (toLowerStr "System shall prevent unauthorized access") kwDataLoss ≠ 0) ∧
    (classify "System shall prevent unauthorized access").priority_hint = "High" :=
  ⟨Or.inl (by decide),
    priority_hint_total_and_high.2.1 "System shall prevent unauthorized access"
      (Or.inl (by decide))⟩

/-! ## BehaviorExtractor

Modelled from the spec: BehaviorExtractionService (backend/services/behavior_extraction.py
is absent from the source tree).  Spec section 4.3: split the action phrase on
coordinating conjunctions that join verb phrases; extract the object as the
noun phrase following the verb; malformed actions (no recognizable verb or
structural noise such as parenthetical codes and numbering) still yield exactly
one fallback behavior with a malformed-action issue and reduced confidence. -/

/-- One atomic behavior (spec section 3 AtomicBehavior and
src/tests/test_behavior_extraction.py AtomicBehaviorData). -/
structure AtomicBehaviorData where
  behavior_id : String
  requirement_id : String
  actor : String
  action : String
  object_name : String
  condition : Option String
  description : String
deriving Repr, DecidableEq

/-- Result of behavior extraction (spec section 4.3 contract). -/
structure BehaviorExtractionResult where
  behaviors : List AtomicBehaviorData
  confidence : Rat
  issues : List String
deriving Repr, DecidableEq

/-- Normalized data handed to the extractor (the dict used by
src/tests/test_behavior_extraction.py: actor, action, conditions,
expected_outcome, feature_area). -/
structure BehaviorInput where
  actor : String
  action : String
  conditions : List String
  expected_outcome : String
  feature_area : String
deriving Repr, DecidableEq

/-- Verb vocabulary used to recognize verb phrases when splitting compound
actions and detecting malformed action text. -/
def knownVerbs : List String :=
  ["login", "logout", "reserve", "process", "authenticate", "redirect",
   "validate", "create", "block", "receive", "perform", "respond", "encrypt",
   "prevent", "submit", "display", "send", "store", "update", "delete",
   "handle", "generate", "maintain"]

/-- Is the word a recognizable verb. -/
def isVerbTok (w : String) : Bool := knownVerbs.contains (canonTok w)

/-- Structural noise: parenthetical codes or pure numbering tokens
(spec section 4.3 malformed-action detection). -/
def structuralNoise (w : String) : Bool :=
  w.data.any (fun c => c == '(' || c == ')') ||
  (!w.data.isEmpty && w.data.all Char.isDigit)

/-- Malformed action: no recognizable verb, or structural noise present. -/
def malformedAction (ws : List String) : Bool :=
  !ws.any isVerbTok || ws.any structuralNoise

/-- Rejoin action fragments that do not start their own verb phrase into the
previous fragment (same-actor compound splitting, spec section 4.3). -/
def regroupVerbs (acc : List String) : List (List String) → List (List String)
  | [] => [acc]
  | g :: gs =>
    if g.any isVerbTok then acc :: regroupVerbs g gs
    else regroupVerbs (acc ++ "and" :: g) gs

/-- Split an action word sequence into verb-phrase groups. -/
def splitActionGroups (ws : List String) : List (List String) :=
  match splitOnAnd ws with
  | [] => [ws]
  | g :: gs => regroupVerbs g gs

/-- Object words: the noun phrase following the first verb, articles dropped. -/
def objectWords (ws : List String) : List String :=
  ((ws.dropWhile (fun w => !isVerbTok w)).drop 1).filter
    (fun w => !(articles.contains (toLowerStr w)))

/-- Object slot of a verb-phrase group. -/
def objectOf (ws : List String) : String := joinWords (objectWords ws)

/-- Two-digit, zero-padded sequence number. -/
def pad2 (n : Nat) : String := if n < 10 then "0" ++ toString n else toString n

/-- Behavior id: requirement id plus a per-requirement zero-padded sequence
number prefixed B (spec sections 3 and 6: B01, B02, and so on). -/
def behaviorId (rid : String) (i : Nat) : String := rid ++ "-B" ++ pad2 (i + 1)

/-- Description of one extracted behavior. -/
def behaviorDescription (actor action : String) (condition : Option String) : String :=
  actor ++ " " ++ action ++ (match condition with | some c => " " ++ c | none => "")

/-- Modelled from the spec: BehaviorExtractionService.extract (the service
source is absent from src/; spec section 4.3).  Never returns zero behaviors
for a non-empty action; malformed actions yield exactly one fallback behavior,
an explicit malformed-action issue and confidence below 1. -/
def extract (requirement_id : String) (normalized_data : BehaviorInput)
    (_requirement_type : String) : BehaviorExtractionResult :=
  let ws := words normalized_data.action
  let condition := normalized_data.conditions.head?
  if malformedAction ws then
    { behaviors := [{
        behavior_id := behaviorId requirement_id 0
        requirement_id := requirement_id
        actor := normalized_data.actor
        action := normalized_data.action
        object_name := normalized_data.action
        condition := condition
        description := behaviorDescription normalized_data.actor normalized_data.action condition }]
      confidence := mkRat 1 2
      issues := ["Malformed action: no recognizable verb phrase, object may be missing"] }
  else
    let groups := splitActionGroups ws
    let behaviors := groups.enum.map (fun p =>
      { behavior_id := behaviorId requirement_id p.1
        requirement_id := requirement_id
        actor := normalized_data.actor
        action := joinWords p.2
        object_name := objectOf p.2
        condition := condition
        description := behaviorDescription normalized_data.actor (joinWords p.2) condition })
    { behaviors := behaviors
      confidence := if behaviors.length > 1 then mkRat 9 10 else mkRat 19 20
      issues := if behaviors.length > 1 then ["Compound action detected and split"] else [] }

/-! ## Lemmas and claim about the BehaviorExtractor -/

theorem regroupVerbs_ne_nil (gs : List (List String)) : ∀ acc, regroupVerbs acc gs ≠ [] := by
  induction gs with
  | nil => intro acc; simp [regroupVerbs]
  | cons g gs ih =>
    intro acc
    simp only [regroupVerbs]
    split
    · simp
    · exact ih _

theorem splitActionGroups_ne_nil (ws : List String) : splitActionGroups ws ≠ [] := by
  unfold splitActionGroups
  split
  · simp
  · exact regroupVerbs_ne_nil _ _

/-- C3: for every requirement id and normalized data with non-empty action,
extract returns at least one behavior; on the malformed action text
"System (SPMS) 1 Product Overview Product Name" it returns exactly one
behavior, confidence strictly below 1, and an issue mentioning malformed or
missing. -/
theorem extract_never_zero_behaviors :
    (∀ (rid : String) (nd : BehaviorInput) (rt : String), nd.action ≠ "" →
      (extract rid nd rt).behaviors ≠ []) ∧
    ((extract "REQ-20260211-001"
        ⟨"System", "System (SPMS) 1 Product Overview Product Name", [], "", "General"⟩
        "NFR").behaviors.length = 1 ∧
      (extract "REQ-20260211-001"
        ⟨"System", "System (SPMS) 1 Product Overview Product Name", [], "", "General"⟩
        "NFR").confidence < 1 ∧
      ∃ issue ∈ (extract "REQ-20260211-001"
        ⟨"System", "System (SPMS) 1 Product Overview Product Name", [], "", "General"⟩
        "NFR").issues,
        (strContains (toLowerStr issue) "malformed" ||
          strContains (toLowerStr issue) "missing") = true) := by
  constructor
  · intro rid nd rt _
    simp only [extract]
    split
    · simp
    · simp only [ne_eq, List.map_eq_nil_iff, List.enum_eq_nil]
      exact splitActionGroups_ne_nil _
  · have hm : malformedAction
        (words "System (SPMS) 1 Product Overview Product Name") = true := by decide
    refine ⟨by decide, ?_, ?_⟩
    · have hc : (extract "REQ-20260211-001"
          ⟨"System", "System (SPMS) 1 Product Overview Product Name", [], "", "General"⟩
          "NFR").confidence = mkRat 1 2 := by
        simp only [extract, hm, if_true]
      rw [hc]
      decide
    · refine ⟨"Malformed action: no recognizable verb phrase, object may be missing", ?_, by decide⟩
      have hi : (extract "REQ-20260211-001"
          ⟨"System", "System (SPMS) 1 Product Overview Product Name", [], "", "General"⟩
          "NFR").issues
          = ["Malformed action: no recognizable verb phrase, object may be missing"] := by
        simp only [extract, hm, if_true]
      rw [hi]
      simp

theorem extract_never_zero_behaviors_witness :
    ("reserve parking slot" : String) ≠ "" ∧
    (extract "FR-3" ⟨"User", "reserve parking slot", ["future time window"], "slot reserved",
      "Reservation"⟩ "Functional").behaviors ≠ [] :=
  ⟨by decide,
    extract_never_zero_behaviors.1 "FR-3"
      ⟨"User", "reserve parking slot", ["future time window"], "slot reserved", "Reservation"⟩
      "Functional" (by decide)⟩

/-! ## CoverageCalculator

Modelled from the spec: CoverageService and DimensionApplicabilityChecker
(backend/services/coverage.py is absent from the source tree).  Spec
section 4.4: Functional and Negative dimensions are always required, the
remaining dimensions are triggered by keyword and shape rules; per-requirement
coverage is 100 times the number of distinct test types over the number of
required dimensions, rounded down and capped at 100. -/

/-- Test-coverage dimensions (spec glossary). -/
inductive Dimension where
  | Functional
  | Negative
  | Boundary
  | Edge
  | Performance
  | Security
  | Concurrency
  | Failure
  | Integration
deriving Repr, DecidableEq

/-- Name of each dimension, matching test_type strings. -/
def dimName : Dimension → String
  | .Functional => "Functional"
  | .Negative => "Negative"
  | .Boundary => "Boundary"
  | .Edge => "Edge"
  | .Performance => "Performance"
  | .Security => "Security"
  | .Concurrency => "Concurrency"
  | .Failure => "Failure"
  | .Integration => "Integration"

/-- Test-case record consumed by the coverage calculator (the dicts built in
src/tests/test_coverage.py: behavior_id, test_type, mapped_requirement_id). -/
structure TestCaseRef where
  behavior_id : String
  test_type : String
  mapped_requirement_id : String
deriving Repr, DecidableEq

/-- Requirement record consumed by the coverage calculator.  The conditions
field stands for the conditions entry of the normalized dict, the only part of
it the applicability rules read (Edge is required when conditions exist). -/
structure RequirementRef where
  requirement_id : String
  source_text : String
  classification : List String
  conditions : List String
deriving Repr, DecidableEq

/-- Behavior record consumed by the coverage calculator. -/
structure BehaviorRef where
  behavior_id : String
  requirement_id : String
deriving Repr, DecidableEq

/-- Coverage result (spec section 3 CoverageResult; mappings are association
lists). -/
structure CoverageResult where
  requirement_coverage : List (String × Nat)
  overall_coverage : Nat
  gaps_detected : List String
  dimension_coverage : List (String × Nat)
deriving Repr, DecidableEq

/-- Performance trigger keywords for dimension applicability. -/
def kwPerfTrigger : List String :=
  ["millisecond", "seconds", "latency", "uptime", "response time", "performance",
   "throughput"]

/-- Security trigger keywords: payment, auth and credential-bearing flows. -/
def kwSecTrigger : List String :=
  ["encrypt", "authoriz", "password", "credential", "authenticat", "payment",
   "credit card", "token", "security", "secure"]

/-- Concurrency trigger keywords: shared contestable resources and explicit
concurrency wording. -/
def kwConcTrigger : List String :=
  ["concurrent", "simultaneous", "parallel", "reservation", "reserve", "slot",
   "seat", "booking"]

/-- Does the text contain a measurable or numeric input range. -/
def hasNumericRange (t : String) : Bool :=
  (words t).any (fun w => w.data.any Char.isDigit)

/-- Modelled from the spec: DimensionApplicabilityChecker.get_required_dimensions
(spec section 4.4 step 1).  Functional and Negative are unconditional. -/
def requiredDimensions (r : RequirementRef) : List Dimension :=
  let t := toLowerStr r.source_text
  ([Dimension.Functional, Dimension.Negative]
    ++ (if hasNumericRange t then [Dimension.Boundary] else [])
    ++ (if !r.conditions.isEmpty then [Dimension.Edge] else [])
    ++ (if r.classification.contains "NFR" || r.classification.contains "Performance"
          || countMatches t kwPerfTrigger ≠ 0 then
          [Dimension.Performance, Dimension.Failure] else [])
    ++ (if r.classification.contains "Security" || countMatches t kwSecTrigger ≠ 0 then
          [Dimension.Security, Dimension.Failure] else [])
    ++ (if countMatches t kwConcTrigger ≠ 0 then [Dimension.Concurrency] else [])).dedup

/-- Distinct test_type values of the test cases mapped to a requirement. -/
def testTypesFor (tcs : List TestCaseRef) (rid : String) : List String :=
  ((tcs.filter (fun tc => tc.mapped_requirement_id == rid)).map
    (fun tc => tc.test_type)).dedup

/-- Per-requirement coverage percentage (spec section 4.4 step 2): 100 times
the number of distinct test types over the number of required dimensions,
rounded down, capped at 100. -/
def coverageFor (tcs : List TestCaseRef) (r : RequirementRef) : Nat :=
  min 100 ((100 * (testTypesFor tcs r.requirement_id).length)
    / (requiredDimensions r).length)

/-- Gap entries of one requirement: one per missing required dimension. -/
def gapsFor (tcs : List TestCaseRef) (r : RequirementRef) : List String :=
  ((requiredDimensions r).filter
    (fun d => !(testTypesFor tcs r.requirement_id).contains (dimName d))).map
    (fun d => r.requirement_id ++ ": Missing " ++ dimName d ++ " tests")

/-- Batch-wide count of test cases per test_type (spec section 4.4 step 5). -/
def dimensionCoverage (tcs : List TestCaseRef) : List (String × Nat) :=
  ((tcs.map (fun tc => tc.test_type)).dedup).map
    (fun t => (t, (tcs.filter (fun tc => tc.test_type == t)).length))

/-- Modelled from the spec: CoverageService.calculate (the service source is
absent from src/; spec section 4.4).  The behaviors argument is carried for
signature fidelity; requirement matching goes through mapped_requirement_id. -/
def calculate (test_cases : List TestCaseRef) (requirements : List RequirementRef)
    (_behaviors : List BehaviorRef) : CoverageResult :=
  let reqCov := requirements.map (fun r => (r.requirement_id, coverageFor test_cases r))
  { requirement_coverage := reqCov
    overall_coverage :=
      if requirements.isEmpty then 0
      else (reqCov.map (fun p => p.2)).sum / requirements.length
    gaps_detected := (requirements.map (gapsFor test_cases)).flatten
    dimension_coverage := dimensionCoverage test_cases }

/-! ## Lemmas and claim about the CoverageCalculator -/

theorem requiredDimensions_ne_nil (r : RequirementRef) : requiredDimensions r ≠ [] := by
  unfold requiredDimensions
  rw [ne_eq, List.dedup_eq_nil]
  simp

theorem coverageFor_nil (r : RequirementRef) : coverageFor [] r = 0 := by
  simp [coverageFor, testTypesFor]

theorem coverageFor_le_100 (tcs : List TestCaseRef) (r : RequirementRef) :
    coverageFor tcs r ≤ 100 :=
  Nat.min_le_left _ _

/-- C4: with an empty test_cases argument, overall coverage and every
requirement coverage entry are 0 (and the required dimension set is never
empty, so the divisor never vanishes); and for every input, every requirement
coverage entry is capped at 100. -/
theorem coverage_zero_and_capped :
    (∀ (reqs : List RequirementRef) (behs : List BehaviorRef),
      (calculate [] reqs behs).overall_coverage = 0 ∧
      ∀ p ∈ (calculate [] reqs behs).requirement_coverage, p.2 = 0) ∧
    (∀ r : RequirementRef, requiredDimensions r ≠ []) ∧
    (∀ (tcs : List TestCaseRef) (reqs : List RequirementRef) (behs : List BehaviorRef),
      ∀ p ∈ (calculate tcs reqs behs).requirement_coverage, p.2 ≤ 100) := by
  refine ⟨?_, requiredDimensions_ne_nil, ?_⟩
  · intro reqs behs
    constructor
    · simp only [calculate]
      split
      · rfl
      · have hz : (List.map (fun p => p.2)
            (reqs.map (fun r => (r.requirement_id, coverageFor [] r)))).sum = 0 := by
          simp [List.map_map, Function.comp_def, coverageFor_nil]
        rw [hz]
        exact Nat.zero_div _
    · intro p hp
      simp only [calculate] at hp
      obtain ⟨r, _, rfl⟩ := List.mem_map.mp hp
      exact coverageFor_nil r
  · intro tcs reqs behs p hp
    simp only [calculate] at hp
    obtain ⟨r, _, rfl⟩ := List.mem_map.mp hp
    exact coverageFor_le_100 tcs r

theorem coverage_zero_and_capped_witness :
    (("FR-1", coverageFor [] ⟨"FR-1", "User shall login", ["Functional"], []⟩)
      ∈ (calculate [] [⟨"FR-1", "User shall login", ["Functional"], []⟩] []).requirement_coverage) ∧
    ("FR-1", coverageFor [] ⟨"FR-1", "User shall login", ["Functional"], []⟩).2 = 0 :=
  ⟨by simp [calculate],
    (coverage_zero_and_capped.1 [⟨"FR-1", "User shall login", ["Functional"], []⟩] []).2
      ("FR-1", coverageFor [] ⟨"FR-1", "User shall login", ["Functional"], []⟩)
      (by simp [calculate])⟩

/-! ## Generator

Modelled from the spec: TestCaseGenerationService (backend/services/generation.py
is absent from the source tree).  Spec section 4.5: one templated test case per
required dimension (reusing the coverage applicability rules); every title
carries the literal markers when and expecting; steps are numbered from 1
strictly increasing; rules_applied names the template; generate_test_case_id is
pure with format TTC- plus requirement id plus type code plus disambiguator. -/

/-- One test step (spec section 3 GeneratedTestCase.steps). -/
structure TestStep where
  step_number : Nat
  action : String
  expected_intermediate : Option String
deriving Repr, DecidableEq

/-- One generated test case (spec section 3 GeneratedTestCase). -/
structure GeneratedTestCase where
  requirement_id : String
  test_type : String
  title : String
  preconditions : List String
  steps : List TestStep
  test_data : List (String × String)
  expected_result : String
  template_id : String
  rules_applied : List String
  confidence : Rat
deriving Repr, DecidableEq

/-- Normalized requirement dict handed to generate (the fixture in
src/tests/test_normalization.py: requirement_id, actor, action, conditions,
expected_outcome). -/
structure GenInput where
  requirement_id : String
  actor : String
  action : String
  conditions : List String
  expected_outcome : String
deriving Repr, DecidableEq

/-- Classification dict handed to generate: types and priority_hint. -/
structure GenClassification where
  types : List String
  priority_hint : String
deriving Repr, DecidableEq

/-- Ambiguity dict handed to generate by the CLI (src/cli/cli.py lines 110-114). -/
structure AmbiguityPayload where
  is_ambiguous : Bool
  issues : List String
  clarifying_questions : List String
deriving Repr, DecidableEq

/-- Generation configuration carrying the determinism seed. -/
structure GenerationConfig where
  determinism_seed : Nat
deriving Repr, DecidableEq

/-- Test type string of each dimension (Functional templates produce Positive
test cases, as in src/tests/test_normalization.py). -/
def dimTestType : Dimension → String
  | .Functional => "Positive"
  | d => dimName d

/-- First condition of the requirement, with a generic default. -/
def condPhrase (req : GenInput) : String :=
  match req.conditions with
  | [] => "standard preconditions hold"
  | c :: _ => c

/-- Expected outcome with an action paraphrase default. -/
def outcomeOf (req : GenInput) : String :=
  if req.expected_outcome == "" then req.action ++ " completes successfully"
  else req.expected_outcome

/-- Scenario phrase of each dimension template. -/
def scenarioFor (req : GenInput) : Dimension → String
  | .Functional => condPhrase req
  | .Negative => "inputs are invalid"
  | .Boundary => "inputs are at the boundary of the allowed range"
  | .Edge => "the condition " ++ condPhrase req ++ " is at its edge"
  | .Performance => "the system is under expected load"
  | .Security => "an unauthorized actor attempts the operation"
  | .Concurrency => "multiple actors act concurrently"
  | .Failure => "a dependent component fails"
  | .Integration => "integrated components interact"

/-- Outcome phrase of each dimension template. -/
def outcomeFor (req : GenInput) : Dimension → String
  | .Functional => outcomeOf req
  | .Negative => "a clear error message and no state change"
  | .Boundary => "correct handling at the boundary"
  | .Edge => "correct handling of the edge condition"
  | .Performance => "completion within the required time"
  | .Security => "the attempt is rejected"
  | .Concurrency => "a consistent final state"
  | .Failure => "graceful degradation with a reported error"
  | .Integration => "correct end-to-end behavior"

/-- Title template (spec section 4.5 hard format contract: the literal markers
when and expecting are always present). -/
def mkTitle (req : GenInput) (scenario outcome : String) : String :=
  "Verify " ++ req.action ++ " when " ++ scenario ++ ", expecting " ++ outcome

/-- Steps template: three steps numbered 1, 2, 3. -/
def mkSteps (req : GenInput) (d : Dimension) : List TestStep :=
  [⟨1, "Set up preconditions: " ++ condPhrase req, none⟩,
   ⟨2, req.actor ++ " performs: " ++ req.action ++ " while " ++ scenarioFor req d,
     some "The action is accepted for processing"⟩,
   ⟨3, "Observe and record the outcome", some (outcomeFor req d)⟩]

/-- Is the requirement API-shaped (selects api_request test data). -/
def isApiShaped (cls : GenClassification) : Bool := cls.types.contains "API behavior"

/-- Test data: api_request for API-behavior requirements, inputs otherwise. -/
def mkTestData (cls : GenClassification) (req : GenInput) : List (String × String) :=
  if isApiShaped cls then [("api_request", "request exercising " ++ req.action)]
  else [("inputs", "data exercising " ++ req.action)]

/-- Template id of a dimension. -/
def templateId (d : Dimension) : String := "TPL-" ++ dimName d

/-- Requirement view used to reuse the coverage applicability rules inside the
generator (spec section 4.5: the generator computes the required-dimension set
with the CoverageCalculator rules). -/
def reqRefOf (req : GenInput) (cls : GenClassification) : RequirementRef :=
  ⟨req.requirement_id, req.actor ++ " " ++ req.action, cls.types, req.conditions⟩

/-- One templated test case for a dimension. -/
def mkTestCase (req : GenInput) (cls : GenClassification) (d : Dimension) :
    GeneratedTestCase :=
  { requirement_id := req.requirement_id
    test_type := dimTestType d
    title := mkTitle req (scenarioFor req d) (outcomeFor req d)
    preconditions := "System is in a known initial state" :: req.conditions
    steps := mkSteps req d
    test_data := mkTestData cls req
    expected_result := outcomeFor req d
    template_id := templateId d
    rules_applied := ["template " ++ templateId d ++ " applied for " ++ dimName d]
    confidence := mkRat 9 10 }

/-- Modelled from the spec: TestCaseGenerationService.generate (the service
source is absent from src/; spec section 4.5).  One test case per required
dimension; deterministic in its inputs. -/
def generate (normalized_req : GenInput) (classification : GenClassification)
    (_ambiguity : Option AmbiguityPayload) : List GeneratedTestCase :=
  (requiredDimensions (reqRefOf normalized_req classification)).map
    (mkTestCase normalized_req classification)

/-- Modelled from the spec: TestCaseGenerationService.generate_test_case_id
(the service source is absent from src/; spec sections 4.5 and 6): pure, with
format TTC- plus requirement_id plus dash plus type_code plus disambiguator. -/
def generate_test_case_id (requirement_id : String) (type_code : String) : String :=
  "TTC-" ++ requirement_id ++ "-" ++ type_code ++ "-001"

/-- Priority of one test case: the classification hint adjusted by the 3-letter
type code; Security and Negative cases are never downgraded below Medium
(spec section 4.5). -/
def map_priority (hint : String) (code : String) : String :=
  if (code == "SEC" || code == "NEG") && hint == "Low" then "Medium" else hint

/-! ## Substring lemmas -/

theorem data_mk (l : List Char) : (String.mk l).data = l := rfl

theorem toLowerStr_data (s : String) : (toLowerStr s).data = s.data.map Char.toLower := rfl

theorem strContains_eq (hay needle : String) :
    strContains hay needle = substrC needle.data hay.data := rfl

theorem isPrefixC_self_append (p r : List Char) : isPrefixC p (p ++ r) = true := by
  induction p with
  | nil => rfl
  | cons c cs ih => simp [isPrefixC, ih]

theorem isPrefixC_of_append {p a : List Char} (b : List Char)
    (h : isPrefixC p a = true) : isPrefixC p (a ++ b) = true := by
  induction p generalizing a with
  | nil => rfl
  | cons c cs ih =>
    cases a with
    | nil => simp [isPrefixC] at h
    | cons x xs =>
      simp only [isPrefixC, Bool.and_eq_true] at h
      simp only [List.cons_append, isPrefixC, Bool.and_eq_true]
      exact ⟨h.1, ih h.2⟩

theorem substrC_cons {p : List Char} (c : Char) {cs : List Char}
    (h : substrC p cs = true) : substrC p (c :: cs) = true := by
  simp [substrC, h]

theorem substrC_append_right {p b : List Char} (a : List Char)
    (h : substrC p b = true) : substrC p (a ++ b) = true := by
  induction a with
  | nil => simpa using h
  | cons c cs ih => exact substrC_cons c ih

theorem substrC_append_left {p a : List Char} (b : List Char)
    (h : substrC p a = true) : substrC p (a ++ b) = true := by
  induction a with
  | nil =>
    cases p with
    | nil => cases b <;> simp [substrC, isPrefixC]
    | cons c cs => simp [substrC, isPrefixC] at h
  | cons c cs ih =>
    simp only [substrC, Bool.or_eq_true] at h
    rcases h with h | h
    · simp only [List.cons_append, substrC, Bool.or_eq_true]
      exact Or.inl (isPrefixC_of_append b h)
    · simp only [List.cons_append]
      exact substrC_cons c (ih h)

theorem substrC_self_append (p r : List Char) : substrC p (p ++ r) = true := by
  cases p with
  | nil => cases r <;> simp [substrC, isPrefixC]
  | cons c cs =>
    simp only [List.cons_append, substrC, Bool.or_eq_true]
    exact Or.inl (by simpa using isPrefixC_self_append (c :: cs) r)

/-! ## Lemmas and claims about the Generator -/

theorem mkTitle_contains_when (req : GenInput) (sc oc : String) :
    strContains (toLowerStr (mkTitle req sc oc)) "when" = true := by
  rw [strContains_eq, toLowerStr_data]
  unfold mkTitle
  simp only [String.data_append, List.map_append, List.append_assoc]
  apply substrC_append_right
  apply substrC_append_right
  apply substrC_append_left
  decide

theorem mkTitle_contains_expecting (req : GenInput) (sc oc : String) :
    strContains (toLowerStr (mkTitle req sc oc)) "expecting" = true := by
  rw [strContains_eq, toLowerStr_data]
  unfold mkTitle
  simp only [String.data_append, List.map_append, List.append_assoc]
  apply substrC_append_right
  apply substrC_append_right
  apply substrC_append_right
  apply substrC_append_right
  apply substrC_append_left
  decide

theorem title_not_generic {s : String} (h : strContains s "when" = true) :
    s ≠ "verify" ∧ s ≠ "test" := by
  constructor
  · intro he
    rw [he] at h
    exact absurd h (by decide)
  · intro he
    rw [he] at h
    exact absurd h (by decide)

theorem mkSteps_numbers (req : GenInput) (d : Dimension) :
    (mkSteps req d).map (fun s => s.step_number) = [1, 2, 3] := rfl

/-- C5: every test case returned by generate has a title containing the
literal markers when and expecting (case-insensitively), is never the generic
title verify or test, and has a non-empty steps sequence whose step_number
values start at 1 and are strictly increasing. -/
theorem generated_titles_and_steps :
    ∀ (req : GenInput) (cls : GenClassification) (amb : Option AmbiguityPayload),
      ∀ tc ∈ generate req cls amb,
        strContains (toLowerStr tc.title) "when" = true ∧
        strContains (toLowerStr tc.title) "expecting" = true ∧
        toLowerStr tc.title ≠ "verify" ∧
        toLowerStr tc.title ≠ "test" ∧
        tc.steps ≠ [] ∧
        (tc.steps.map (fun s => s.step_number)).head? = some 1 ∧
        List.Chain' (fun a b => a < b) (tc.steps.map (fun s => s.step_number)) := by
  intro req cls amb tc htc
  unfold generate at htc
  obtain ⟨d, _, rfl⟩ := List.mem_map.mp htc
  have hw : strContains (toLowerStr (mkTestCase req cls d).title) "when" = true := by
    simp only [mkTestCase]
    exact mkTitle_contains_when req _ _
  have he : strContains (toLowerStr (mkTestCase req cls d).title) "expecting" = true := by
    simp only [mkTestCase]
    exact mkTitle_contains_expecting req _ _
  have hng := title_not_generic hw
  refine ⟨hw, he, hng.1, hng.2, ?_, ?_, ?_⟩
  · simp [mkTestCase, mkSteps]
  · simp only [mkTestCase, mkSteps_numbers]
    rfl
  · simp only [mkTestCase, mkSteps_numbers]
    norm_num [List.chain'_cons, List.chain'_singleton]

/-- Sample normalized requirement, from the generator fixture in
src/tests/test_normalization.py. -/
def sampleGenInput : GenInput :=
  ⟨"REQ-20240210-0001", "User", "login with valid credentials",
   ["User is on login page"], "successful authentication"⟩

/-- Sample classification, from the generator fixture in
src/tests/test_normalization.py. -/
def sampleGenCls : GenClassification := ⟨["Functional"], "Medium"⟩

theorem generated_titles_and_steps_witness :
    mkTestCase sampleGenInput sampleGenCls Dimension.Functional
      ∈ generate sampleGenInput sampleGenCls none ∧
    strContains
      (toLowerStr (mkTestCase sampleGenInput sampleGenCls Dimension.Functional).title)
      "when" = true ∧
    (mkTestCase sampleGenInput sampleGenCls Dimension.Functional).steps ≠ [] :=
  ⟨by decide,
    (generated_titles_and_steps sampleGenInput sampleGenCls none _ (by decide)).1,
    (generated_titles_and_steps sampleGenInput sampleGenCls none _ (by decide)).2.2.2.2.1⟩

/-- C8: generate_test_case_id is pure with format TTC- plus requirement id
plus type code plus disambiguator; the id starts with TTC-, contains the
requirement id, and the POS and NEG ids of one requirement differ. -/
theorem test_case_id_pure_format :
    ∀ requirement_id : String,
      generate_test_case_id requirement_id "POS" ≠ generate_test_case_id requirement_id "NEG" ∧
      ∀ type_code : String,
        isPrefixC "TTC-".data (generate_test_case_id requirement_id type_code).data = true ∧
        substrC requirement_id.data (generate_test_case_id requirement_id type_code).data = true ∧
        generate_test_case_id requirement_id type_code
          = "TTC-" ++ requirement_id ++ "-" ++ type_code ++ "-001" := by
  intro rid
  constructor
  · intro h
    have hd := congrArg String.data h
    simp only [generate_test_case_id, String.data_append, List.append_assoc,
      List.cons_append, List.nil_append, List.cons.injEq, List.append_right_inj,
      true_and] at hd
    simp at hd
  · intro code
    have hd : (generate_test_case_id rid code).data
        = "TTC-".data ++ (rid.data ++ ("-".data ++ (code.data ++ "-001".data))) := by
      simp [generate_test_case_id, String.data_append, List.append_assoc]
    refine ⟨?_, ?_, rfl⟩
    · rw [hd]
      exact isPrefixC_self_append _ _
    · rw [hd]
      exact substrC_append_right _ (substrC_self_append _ _)

theorem test_case_id_pure_format_witness :
    generate_test_case_id "REQ-20240210-0001" "POS"
        ≠ generate_test_case_id "REQ-20240210-0001" "NEG" ∧
    isPrefixC "TTC-".data (generate_test_case_id "REQ-20240210-0001" "POS").data = true :=
  ⟨(test_case_id_pure_format "REQ-20240210-0001").1,
    ((test_case_id_pure_format "REQ-20240210-0001").2 "POS").1⟩

/-! ## CLI driver

Embedded from src/cli/cli.py (TestCaseGeneratorCLI.generate, lines 45-189, and
TestCaseGeneratorCLI.batch_process, lines 305-367).  The CLI calls the backend
services through self.*_service attributes; since those services are not part
of the source tree, the embedding is parameterized over them (a CliServices
record), exactly mirroring the dependency injection of the Python class.
Console printing, timestamps and file output are I/O and are not modelled;
the audit_log timestamp fields are therefore omitted. -/

/-- The service functions the CLI calls (src/cli/cli.py lines 39-43 and the
call sites in generate): normalize, classify on the original text, per
requirement test-case generation, id generation, priority mapping, and the
determinism seed of the generation config. -/
structure CliServices where
  normalize : String → List NormalizationResult
  classify : String → Classification
  generate : NormalizedData → GenClassification → Option AmbiguityPayload →
    List GeneratedTestCase
  generate_test_case_id : String → String → String
  map_priority : String → String → String
  determinism_seed : Nat

/-- One entry of normalized_requirements in the CLI output
(src/cli/cli.py lines 118-130). -/
structure NormalizedRecord where
  requirement_id : String
  source_text : String
  normalized : NormalizedData
  classification : List String
  priority_hint : String
  ambiguity : AmbiguityPayload
  provenance : Provenance
deriving Repr, DecidableEq

/-- One entry of test_cases in the CLI output (src/cli/cli.py lines 137-163);
the explainability block is flattened into generation_template_id,
rules_applied and explainability_confidence. -/
structure OutTestCase where
  test_case_id : String
  title : String
  mapped_requirement_id : String
  test_type : String
  preconditions : List String
  steps : List TestStep
  test_data : List (String × String)
  expected_result : String
  priority : String
  determinism_seed : Nat
  generation_template_id : String
  rules_applied : List String
  explainability_confidence : Rat
deriving Repr, DecidableEq

/-- The audit_log block (src/cli/cli.py lines 165-179; timestamps omitted as
I/O). -/
structure AuditLog where
  generator_version : String
  model_reference : String
  validation_status : String
  errors : List String
  change_history : List String
deriving Repr, DecidableEq

/-- The output structure of TestCaseGeneratorCLI.generate
(src/cli/cli.py lines 135-180). -/
structure CliOutput where
  normalized_requirements : List NormalizedRecord
  test_cases : List OutTestCase
  audit_log : AuditLog
deriving Repr, DecidableEq

/-- The classification type list built by the CLI:
primary_class plus secondary_classes values (src/cli/cli.py lines 107, 122). -/
def typesOf (c : Classification) : List String :=
  (c.primary_class :: c.secondary_classes).map className

/-- The ambiguity dict built by the CLI from a normalization result
(src/cli/cli.py lines 110-114 and 124-128). -/
def ambPayloadOf (n : NormalizationResult) : AmbiguityPayload :=
  ⟨n.is_ambiguous, n.ambiguity_issues.map (fun i => i.description),
    n.clarifying_questions⟩

/-- The Python slice-and-upper tc.test_type[:3].upper()
(src/cli/cli.py lines 139 and 149). -/
def typeCode3 (t : String) : String := toUpperStr (takeStr 3 t)

/-- State of the generation loop of src/cli/cli.py lines 98-130: the
accumulated test cases and normalized records, plus the current values of the
loop-scoped variables classification and norm, which in Python survive the
loop and are read by the output comprehension afterwards. -/
structure CliLoopState where
  all_test_cases : List GeneratedTestCase
  all_normalized : List NormalizedRecord
  last : Option (Classification × NormalizationResult)

/-- One iteration of the loop over norm_results (src/cli/cli.py lines 98-130). -/
def cliStep (svc : CliServices) (st : CliLoopState) (norm : NormalizationResult) :
    CliLoopState :=
  let classification := svc.classify norm.original_text
  let generated := svc.generate norm.normalized
    ⟨typesOf classification, classification.priority_hint⟩
    (if norm.is_ambiguous then some (ambPayloadOf norm) else none)
  { all_test_cases := st.all_test_cases ++ generated
    all_normalized := st.all_normalized ++
      [{ requirement_id := norm.provenance.requirement_id
         source_text := norm.original_text
         normalized := norm.normalized
         classification := typesOf classification
         priority_hint := classification.priority_hint
         ambiguity := ambPayloadOf norm
         provenance := norm.provenance }]
    last := some (classification, norm) }

/-- One entry of the output test_cases comprehension
(src/cli/cli.py lines 137-163).  The priority and explainability confidence
fields read the loop variables classification and norm as they stand after the
loop (the last processed requirement); when norm_results is empty the
comprehension body never runs in Python, so the none branch is unreachable and
filled with inert defaults. -/
def outTestCase (svc : CliServices) (last : Option (Classification × NormalizationResult))
    (tc : GeneratedTestCase) : OutTestCase :=
  { test_case_id := svc.generate_test_case_id tc.requirement_id (typeCode3 tc.test_type)
    title := tc.title
    mapped_requirement_id := tc.requirement_id
    test_type := tc.test_type
    preconditions := tc.preconditions
    steps := tc.steps
    test_data := tc.test_data
    expected_result := tc.expected_result
    priority :=
      match last with
      | some (cls, _) => svc.map_priority cls.priority_hint (typeCode3 tc.test_type)
      | none => ""
    determinism_seed := svc.determinism_seed
    generation_template_id := tc.template_id
    rules_applied := tc.rules_applied
    explainability_confidence :=
      match last with
      | some (_, n) => n.confidence * mkRat 9 10
      | none => 0 }

/-- Embedded from src/cli/cli.py TestCaseGeneratorCLI.generate (lines 45-189,
output construction lines 135-180). -/
def cliGenerate (svc : CliServices) (text : String) : CliOutput :=
  let norm_results := svc.normalize text
  let final := norm_results.foldl (cliStep svc) ⟨[], [], none⟩
  { normalized_requirements := final.all_normalized
    test_cases := final.all_test_cases.map (outTestCase svc final.last)
    audit_log :=
      { generator_version := "1.0.0"
        model_reference := "rule-based-v1"
        validation_status := "passed"
        errors := []
        change_history := ["Generated via CLI"] } }

/-- Embedded from src/cli/cli.py TestCaseGeneratorCLI.batch_process
(lines 305-367): per-line generate calls (returned as results) and the
combined structure with its own audit_log (lines 343-359).  Reading the input
file is I/O; the embedding takes the non-empty stripped lines directly. -/
def batchProcess (svc : CliServices) (requirements : List String) :
    List CliOutput × CliOutput :=
  let results := requirements.map (cliGenerate svc)
  (results,
    { normalized_requirements := (results.map (fun r => r.normalized_requirements)).flatten
      test_cases := (results.map (fun r => r.test_cases)).flatten
      audit_log :=
        { generator_version := "1.0.0"
          model_reference := "rule-based-v1"
          validation_status := "passed"
          errors := []
          change_history := (results.map (fun r => r.audit_log.change_history)).flatten } })

/-! ## Lemmas and claims about the CLI driver -/

theorem cliFoldl_last (svc : CliServices) :
    ∀ (l : List NormalizationResult) (init : CliLoopState)
      (lastNorm : NormalizationResult),
      l.getLast? = some lastNorm →
      (l.foldl (cliStep svc) init).last
        = some (svc.classify lastNorm.original_text, lastNorm) := by
  intro l
  induction l with
  | nil => intro init lastNorm h; simp at h
  | cons a t ih =>
    intro init lastNorm h
    cases t with
    | nil =>
      simp only [List.getLast?_singleton, Option.some.injEq] at h
      subst h
      simp [cliStep]
    | cons b t2 =>
      rw [List.foldl_cons]
      exact ih _ lastNorm (by simpa [List.getLast?_cons_cons] using h)

/-- C9: when normalize returns more than one normalized requirement, the
priority and the explainability confidence (0.9 times a normalized confidence)
of every test case in the CLI output are computed from the classification and
confidence of the last normalized requirement processed by the loop, whichever
requirement the test case is mapped to. -/
theorem cli_priority_confidence_from_last :
    ∀ (svc : CliServices) (text : String) (lastNorm : NormalizationResult),
      1 < (svc.normalize text).length →
      (svc.normalize text).getLast? = some lastNorm →
      ∀ tc ∈ (cliGenerate svc text).test_cases,
        tc.priority = svc.map_priority
          (svc.classify lastNorm.original_text).priority_hint (typeCode3 tc.test_type) ∧
        tc.explainability_confidence = lastNorm.confidence * mkRat 9 10 := by
  intro svc text lastNorm _hlen hlast tc htc
  simp only [cliGenerate] at htc
  obtain ⟨g, _, rfl⟩ := List.mem_map.mp htc
  rw [cliFoldl_last svc (svc.normalize text) ⟨[], [], none⟩ lastNorm hlast]
  exact ⟨rfl, rfl⟩

/-- Stub normalization result used to exercise the CLI driver embedding. -/
def stubNorm (rid text actor : String) : NormalizationResult :=
  { original_text := text
    normalized := ⟨actor, "login", [], "ok"⟩
    is_ambiguous := false
    ambiguity_issues := []
    clarifying_questions := []
    confidence := mkRat 4 5
    provenance := ⟨rid, text, ["step"], mkRat 4 5⟩ }

/-- Stub generated test case used to exercise the CLI driver embedding. -/
def stubTC (rid : String) : GeneratedTestCase :=
  { requirement_id := rid
    test_type := "Positive"
    title := "Verify login when ready, expecting ok"
    preconditions := []
    steps := [⟨1, "do", none⟩]
    test_data := [("inputs", "x")]
    expected_result := "ok"
    template_id := "TPL-Functional"
    rules_applied := ["template TPL-Functional"]
    confidence := mkRat 9 10 }

/-- Concrete service bundle: two normalized requirements with different
classifications, one generated test case each. -/
def svcW : CliServices :=
  { normalize := fun _ =>
      [stubNorm "REQ-1" "first requirement" "User",
       stubNorm "REQ-2" "second requirement" "System"]
    classify := fun t =>
      if t == "second requirement" then
        ⟨.Security, [], [], "High", "Primary classification: Security"⟩
      else ⟨.Functional, [], [], "Medium", "Primary classification: Functional"⟩
    generate := fun nd _ _ =>
      [stubTC (if nd.actor == "User" then "REQ-1" else "REQ-2")]
    generate_test_case_id := generate_test_case_id
    map_priority := map_priority
    determinism_seed := 42 }

/-- The first output test case of the stub run. -/
def tcW : OutTestCase :=
  (cliGenerate svcW "input text").test_cases.headD (outTestCase svcW none (stubTC "REQ-1"))

theorem cli_priority_confidence_from_last_witness :
    1 < (svcW.normalize "input text").length ∧
    (svcW.normalize "input text").getLast?
      = some (stubNorm "REQ-2" "second requirement" "System") ∧
    tcW ∈ (cliGenerate svcW "input text").test_cases ∧
    tcW.mapped_requirement_id = "REQ-1" ∧
    tcW.priority = svcW.map_priority
      (svcW.classify (stubNorm "REQ-2" "second requirement" "System").original_text).priority_hint
      (typeCode3 tcW.test_type) ∧
    tcW.explainability_confidence
      = (stubNorm "REQ-2" "second requirement" "System").confidence * mkRat 9 10 :=
  ⟨by decide, by decide, headD_mem _ (by decide), by decide,
    (cli_priority_confidence_from_last svcW "input text"
      (stubNorm "REQ-2" "second requirement" "System") (by decide) (by decide)
      tcW (headD_mem _ (by decide))).1,
    (cli_priority_confidence_from_last svcW "input text"
      (stubNorm "REQ-2" "second requirement" "System") (by decide) (by decide)
      tcW (headD_mem _ (by decide))).2⟩

/-- C10: every output structure produced by the CLI generate and batch_process
drivers carries an audit_log with validation_status passed and an empty errors
list, for every input and every behavior of the services. -/
theorem audit_log_always_passes :
    (∀ (svc : CliServices) (text : String),
      (cliGenerate svc text).audit_log.validation_status = "passed" ∧
      (cliGenerate svc text).audit_log.errors = []) ∧
    (∀ (svc : CliServices) (inputLines : List String),
      (∀ out ∈ (batchProcess svc inputLines).1,
        out.audit_log.validation_status = "passed" ∧ out.audit_log.errors = []) ∧
      (batchProcess svc inputLines).2.audit_log.validation_status = "passed" ∧
      (batchProcess svc inputLines).2.audit_log.errors = []) := by
  refine ⟨fun svc text => ⟨rfl, rfl⟩, fun svc inputLines => ⟨?_, rfl, rfl⟩⟩
  intro out hout
  simp only [batchProcess] at hout
  obtain ⟨t, _, rfl⟩ := List.mem_map.mp hout
  exact ⟨rfl, rfl⟩

theorem audit_log_always_passes_witness :
    (cliGenerate svcW "input text").audit_log.validation_status = "passed" ∧
    cliGenerate svcW "abc" ∈ (batchProcess svcW ["abc"]).1 ∧
    (cliGenerate svcW "abc").audit_log.errors = [] :=
  ⟨(audit_log_always_passes.1 svcW "input text").1,
    by simp [batchProcess],
    ((audit_log_always_passes.2 svcW ["abc"]).1 (cliGenerate svcW "abc")
      (by simp [batchProcess])).2⟩

end TCGen
